import Mathlib

/-!
Verification development for the `mcp_server_http` repository
(`src/utils/api_client.py`, `src/utils/transaction_utils.py`).

The Python source is shallowly embedded: pure computations become Lean
functions; external effects (the Loki HTTP log API, the Gemini call, the
Postgres store, the matched-order API) become explicit oracle parameters
whose values are the observed outcomes of those calls.  Machine-level
detail does not arise: Python integers are unbounded, so times and
timestamps are `Int` with Python floor division (`Int.fdiv`) where the
source uses `//`.

Ghost instrumentation: where a property speaks about *how many* HTTP page
requests a loop issued, or *which* time ranges were queried, or *whether*
a pipeline stage was reached, the embedding carries an extra counter /
list / flag alongside the value the Python function actually returns.
These fields are write-only bookkeeping: they never influence the modelled
control flow or returned data.
-/

/-- Python `needle in hay` for strings: substring containment, on the
character list of the haystack. -/
def strContainsAux (needle : List Char) : List Char → Bool
  | [] => needle.isEmpty
  | c :: rest => needle.isPrefixOf (c :: rest) || strContainsAux needle rest

/-- Python `needle in hay` (substring test on strings). -/
def strContains (needle hay : String) : Bool :=
  strContainsAux needle.toList hay.toList

/-! ## Configuration constants (`src/utils/config.py` and module-level
constants of `src/utils/api_client.py`) -/

/-- `Config.MAX_LOOKBACK = 30 * 24 * 3600` (30 days, seconds). -/
def MAX_LOOKBACK : Int := 30 * 24 * 3600

/-- `WINDOW_SECONDS = 172_800` (2 days), local constant of
`api_client.fetch_logs`. -/
def WINDOW_SECONDS : Int := 172800

/-- `MIN_WINDOW_SECONDS = 60`, local constant of `api_client.fetch_logs`. -/
def MIN_WINDOW_SECONDS : Int := 60

/-- `max_iterations = floor(Config.MAX_LOOKBACK / WINDOW_SECONDS)` from
`api_client.fetch_logs` (= 15).  Both operands are positive so Python
`floor(/)` agrees with `Int` division; `toNat` makes it usable as fuel. -/
def MAX_ITERATIONS : Nat := (MAX_LOOKBACK / WINDOW_SECONDS).toNat

/-! ## `api_client.fetch_logs` (windowed, iteration-capped fetch loop)

The Loki response body `logs["data"]["result"]` is a list of streams, each
with a `values` list of `(timestamp, message)` pairs; timestamps are
nanoseconds.  The HTTP layer is an oracle
`server : Int → Int → Int → Except String Page` mapping the
`(start, end, limit)` query parameters of each issued request to either a
transport failure (`RequestException` text) or the parsed page. -/

/-- Parsed page: `logs.get("data", {}).get("result", [])`, each entry
reduced to its `values` list of `(nanosecond timestamp, message)` pairs. -/
abbrev Page := List (List (Int × String))

/-- The `window_logs` accumulation: every `msg` of every entry's `values`,
in order (`api_client.py` lines 77-79). -/
def pageMessages (page : Page) : List String :=
  page.foldr (fun entry acc => entry.map Prod.snd ++ acc) []

/-- The `latest_timestamp` computation (`api_client.py` lines 74-82):
starting from `current_start`, max over all `int(ts) // 1_000_000_000`. -/
def latestTimestamp (currentStart : Int) (page : Page) : Int :=
  page.foldl
    (fun acc entry =>
      entry.foldl (fun a p => max a (Int.fdiv p.fst 1000000000)) acc)
    currentStart

/-- Outcome of the while-loop of `api_client.fetch_logs`, with ghost
instrumentation. -/
structure LoopOut where
  /-- The accumulated `raw_logs` list, or the `RuntimeError` message when a
  request failed. -/
  outcome : Except String (List String)
  /-- Ghost: number of HTTP page requests issued. -/
  requests : Nat
  /-- Ghost: the final `seen_ranges` content.  The code inserts a range
  exactly when it issues the request for it, so this is also the list of
  `(start, end)` ranges requested, most recent first. -/
  queried : List (Int × Int)
  deriving Repr

/-- The while-loop of `api_client.fetch_logs` (lines 43-93).  The Python
guard is `current_start < end_time and iteration < max_iterations`, and
`iteration` is incremented by exactly 1 on each of the three paths through
the body (small-window skip, seen-range skip, fetch), so `fuel`
(= `max_iterations - iteration`) decreases by 1 per pass and the loop is
exactly the recursion below. -/
def fetchLoop (server : Int → Int → Int → Except String Page)
    (endTime limit : Int) :
    Nat → Int → List (Int × Int) → List String → Nat → LoopOut
  | 0, _, seen, acc, reqs => ⟨.ok acc, reqs, seen⟩
  | fuel + 1, currentStart, seen, acc, reqs =>
    if currentStart < endTime then
      let currentEnd := min (currentStart + WINDOW_SECONDS) endTime
      if currentEnd - currentStart < MIN_WINDOW_SECONDS then
        fetchLoop server endTime limit fuel currentEnd seen acc reqs
      else if seen.contains (currentStart, currentEnd) then
        fetchLoop server endTime limit fuel currentEnd seen acc reqs
      else
        let seen2 := (currentStart, currentEnd) :: seen
        match server currentStart currentEnd limit with
        | .error e => ⟨.error ("Request failed: " ++ e), reqs + 1, seen2⟩
        | .ok page =>
          let windowLogs := pageMessages page
          let latest := latestTimestamp currentStart page
          let nextStart := if windowLogs.isEmpty then currentEnd else latest
          fetchLoop server endTime limit fuel nextStart seen2
            (acc ++ windowLogs) (reqs + 1)
    else ⟨.ok acc, reqs, seen⟩

/-- The dict returned by `api_client.fetch_logs` on success. -/
structure ApiFetchOut where
  raw_logs : String
  raw_log_list : List String
  end_time : Int
  deriving Repr

/-- Result of `api_client.fetch_logs` with ghost instrumentation. -/
structure ApiFetchResult where
  result : Except String ApiFetchOut
  /-- Ghost: total HTTP page requests issued. -/
  requests : Nat
  /-- Ghost: the `(start, end)` ranges requested. -/
  queried : List (Int × Int)
  deriving Repr

/-- `"\n".join(raw_logs)`. -/
def joinLines (l : List String) : String := String.intercalate "\n" l

/-- The effective time range of `api_client.fetch_logs` (lines 17-26):
end time defaulting to `now` (`int(time.time())`), start/end swap when
inverted, and the clamp `end_time = min(end_time, start_time +
MAX_LOOKBACK)`. -/
def effRange (startTime : Int) (endTimeOpt : Option Int) (now : Int) :
    Int × Int :=
  let et := endTimeOpt.getD now
  let s := if startTime > et then et else startTime
  let e := if startTime > et then startTime else et
  (s, min e (s + MAX_LOOKBACK))

/-- `api_client.fetch_logs` (lines 12-102): end-time defaulting to `now`,
start/end swap, lookback clamp, then the windowed loop; finally
`raw_logs` joined (or the `"No logs found."` sentinel) and the effective
`end_time` returned. -/
def apiFetchLogs (server : Int → Int → Int → Except String Page)
    (startTime : Int) (endTimeOpt : Option Int) (now : Int) (limit : Int) :
    ApiFetchResult :=
  let s := (effRange startTime endTimeOpt now).1
  let e := (effRange startTime endTimeOpt now).2
  let lo := fetchLoop server e limit MAX_ITERATIONS s [] [] 0
  { result := lo.outcome.map fun raw =>
      { raw_logs := if raw.isEmpty then "No logs found." else joinLines raw
        raw_log_list := raw
        end_time := e }
    requests := lo.requests
    queried := lo.queried }

/-! ## `transaction_utils.fetch_logs` (single-request fetch + Gemini check)

`transaction_utils.py` lines 115-164.  One HTTP request; on transport
failure a `RuntimeError` is raised.  The Gemini call is an oracle
`gemini : Except String (Option String)`: `.error e` models the call
raising (exception text `e`), `.ok t` models success with `t` the
`gemini_response.text` attribute (`none` models a missing/`None` text;
Python treats `None` and `""` as falsy and substitutes `"No"`). -/

/-- Module-level `MAX_LOOKBACK` of `transaction_utils.py` (same value). -/
def TU_MAX_LOOKBACK : Int := 30 * 24 * 3600

/-- The start/end normalisation of `transaction_utils.fetch_logs` lines
120-123: swap when inverted, then pull `start_time` up to
`end_time - MAX_LOOKBACK` when the span exceeds the lookback. -/
def clampTimes (startTime endTime : Int) : Int × Int :=
  let s := if startTime > endTime then endTime else startTime
  let e := if startTime > endTime then startTime else endTime
  let s := if e - s > TU_MAX_LOOKBACK then e - TU_MAX_LOOKBACK else s
  (s, e)

/-- The dict returned by `transaction_utils.fetch_logs`. -/
structure FetchLogsOut where
  is_order_created : Bool
  raw_logs : String
  raw_log_list : List String
  deriving Repr, DecidableEq

/-- Python truthiness of `gemini_response.text` (`None` or `""` falsy). -/
def optStrTruthy (o : Option String) : Bool := o.getD "" ≠ ""

/-- `transaction_utils.fetch_logs` (lines 115-164). -/
def tuFetchLogs (server : Int → Int → Int → Except String Page)
    (gemini : Except String (Option String)) (create_id : String)
    (startTime endTime limit : Int) : Except String FetchLogsOut :=
  let s := (clampTimes startTime endTime).1
  let e := (clampTimes startTime endTime).2
  match server s e limit with
  | .error msg => .error ("Request failed: " ++ msg)
  | .ok page =>
    let raw_logs := pageMessages page
    let log_result := if raw_logs.isEmpty then "No logs found."
      else joinLines raw_logs
    match gemini with
    | .ok text =>
      let gemini_output := if optStrTruthy text then (text.getD "").trim
        else "No"
      .ok { is_order_created := gemini_output == "Yes"
            raw_logs := log_result
            raw_log_list := raw_logs }
    | .error e =>
      .ok { is_order_created := raw_logs.any fun msg => strContains create_id msg
            raw_logs := log_result ++ "\nGemini API error: " ++ e ++
              ". Falling back to manual check."
            raw_log_list := raw_logs }

/-! ## The relevance filter of `analyze_bit_ponder_logs`

`transaction_utils.py` lines 177-180.  The identifiers arrive as Python
strings or `None`; both `None` and `""` are falsy and short-circuit the
`and`, so `None` is modelled as `""`. -/

/-- The `filtered_logs` list comprehension of `analyze_bit_ponder_logs`. -/
def filterLogs (logs : List String)
    (source_swap_id destination_swap_id create_id : String) : List String :=
  logs.filter fun log =>
    (create_id ≠ "" && strContains create_id log) ||
    (source_swap_id ≠ "" && strContains source_swap_id log) ||
    (destination_swap_id ≠ "" && strContains destination_swap_id log)

/-! ## The matched-order API result and the swap-state classifier

`transaction_status`, `transaction_utils.py` lines 302-406.  The JSON
response is modelled structurally: a swap sub-object is a JSON object
holding the five fields the code reads (each `Option`, `none` = key
absent) plus `otherKeys`, the remaining keys of the object (their values
are never read; only their existence matters, because Python truthiness
of a dict is non-emptiness). -/

/-- A `source_swap` / `destination_swap` JSON object. -/
structure Swap where
  initiate_tx_hash : Option String := none
  current_confirmations : Option Int := none
  required_confirmations : Option Int := none
  redeem_tx_hash : Option String := none
  refund_tx_hash : Option String := none
  /-- Keys of the object other than the five above. -/
  otherKeys : List String := []
  deriving Repr, DecidableEq

/-- Python truthiness of the swap dict: some key is present. -/
def Swap.truthy (s : Swap) : Bool :=
  s.initiate_tx_hash.isSome || s.current_confirmations.isSome ||
  s.required_confirmations.isSome || s.redeem_tx_hash.isSome ||
  s.refund_tx_hash.isSome || !s.otherKeys.isEmpty

/-- The `result` payload of the matched-order response. -/
structure ResultData where
  source_swap : Option Swap := none
  destination_swap : Option Swap := none
  /-- Keys of the payload other than the two above. -/
  otherKeys : List String := []
  deriving Repr, DecidableEq

/-- Python truthiness of the `result` dict: some key is present. -/
def ResultData.truthy (r : ResultData) : Bool :=
  r.source_swap.isSome || r.destination_swap.isSome || !r.otherKeys.isEmpty

/-- The matched-order API response (`check_matched_order` output); the
`{"error": ...}` wrapper is the case `status = none, result = none`. -/
structure MatchedOrderResult where
  status : Option String := none
  result : Option ResultData := none
  deriving Repr, DecidableEq

/-- Python `if result_data.get("source_swap"):` — the key is present and
its dict value is non-empty. -/
def optSwapTruthy : Option Swap → Bool
  | none => false
  | some s => s.truthy

/-- Python `matched_order_result.get("result")` truthiness. -/
def optResultTruthy : Option ResultData → Bool
  | none => false
  | some r => r.truthy

/-- The guard `matched_order_result.get("status") == "Ok" and
matched_order_result.get("result")` (line 315). -/
def statusOkAndResult (r : MatchedOrderResult) : Bool :=
  r.status == some "Ok" && optResultTruthy r.result

/-- One side's initiation check (lines 322-328 / 352-358):
`initiate_tx_hash` (default `""`) truthy and
`current_confirmations` (default 0) `>=` `required_confirmations`
(default 1), evaluated only under the side's dict-truthiness guard. -/
def sideInitiated (os : Option Swap) : Bool :=
  match os with
  | none => false
  | some sw =>
    sw.truthy && ((sw.initiate_tx_hash.getD "") ≠ "" &&
      decide (sw.current_confirmations.getD 0 ≥ sw.required_confirmations.getD 1))

/-- One side's redeem check (lines 362-375): `redeem_tx_hash` (default
`""`) truthy, under the side's dict-truthiness guard. -/
def sideRedeemed (os : Option Swap) : Bool :=
  match os with
  | none => false
  | some sw => sw.truthy && (sw.redeem_tx_hash.getD "") ≠ ""

/-- One side's refund check (lines 378-391): `refund_tx_hash` (default
`""`) truthy, under the side's dict-truthiness guard. -/
def sideRefunded (os : Option Swap) : Bool :=
  match os with
  | none => false
  | some sw => sw.truthy && (sw.refund_tx_hash.getD "") ≠ ""

/-- The seven lifecycle flags of `transaction_status`. -/
structure Flags where
  is_matched : Bool
  user_initiated : Bool
  cobi_initiated : Bool
  user_redeemed : Bool
  cobi_redeemed : Bool
  user_refunded : Bool
  cobi_refunded : Bool
  deriving Repr, DecidableEq

/-- All-false flag vector: the initial values of lines 307-313, left
untouched when the status/result guard fails. -/
def Flags.allFalse : Flags := ⟨false, false, false, false, false, false, false⟩

/-- The swap-state classifier: the flag assignments of
`transaction_status` lines 307-391 as a pure function of the
matched-order response. -/
def classify (r : MatchedOrderResult) : Flags :=
  if statusOkAndResult r then
    let rd := r.result.getD {}
    { is_matched := optSwapTruthy rd.source_swap || optSwapTruthy rd.destination_swap
      user_initiated := sideInitiated rd.source_swap
      cobi_initiated := sideInitiated rd.destination_swap
      user_redeemed := sideRedeemed rd.source_swap
      cobi_redeemed := sideRedeemed rd.destination_swap
      user_refunded := sideRefunded rd.source_swap
      cobi_refunded := sideRefunded rd.destination_swap }
  else Flags.allFalse

/-! ## The orchestrator `transaction_status`

`transaction_utils.py` lines 229-408.  Every external call is an oracle
field of `Env` holding that call's outcome for this run; `Except.error`
models the call raising an exception.  `analyze_bit_ponder_logs` never
raises (it returns an error string instead, lines 213-217), so its
outcomes are plain strings.  `check_matched_order` never raises either
(its error wrapper dict is data, lines 226-227).

The Python rendering `str(matched_order_result)` of the response dict is
abstracted by the derived `Repr` instance; no claim depends on that text.

`TxOut` carries ghost flags recording which pipeline stages were reached;
they mirror the control flow one-to-one and never influence it. -/

/-- The `created_at` column value: its textual rendering plus the outcome
of `parser.isoparse(str(...)).timestamp()` (`.error` = the parse raised,
carrying the exception text). -/
structure CreatedAt where
  raw : String
  parsed : Except String Int
  deriving Repr

/-- The `create_orders` row as a dict (`none` field = SQL NULL). -/
structure OrderRec where
  create_id : Option String := none
  source_chain : Option String := none
  destination_chain : Option String := none
  created_at : Option CreatedAt := none
  deriving Repr

/-- The `matched_orders` row as a dict. -/
structure MatchedIds where
  source_swap_id : Option String := none
  destination_swap_id : Option String := none
  deriving Repr

/-- Oracle bundle: the outcomes of the external calls `transaction_status`
makes during one run. -/
structure Env where
  /-- `fetch_db_info` outcome: raised / empty dict / row. -/
  db : Except String (Option OrderRec)
  /-- `fetch_matched_order_ids` outcome: raised / empty dict / row. -/
  matched : Except String (Option MatchedIds)
  /-- `fetch_logs(..., EVM_RELAY_CONTAINER)` outcome. -/
  evmFetch : Except String FetchLogsOut
  /-- `analyze_bit_ponder_logs(...)` result for the EVM relay logs. -/
  evmAnalysis : String
  /-- `check_matched_order(create_id)` response (never raises). -/
  matchedOrder : MatchedOrderResult
  /-- `fetch_logs(..., BIT_PONDER_CONTAINER)` outcome. -/
  bitPonderFetch : Except String FetchLogsOut
  /-- `analyze_bit_ponder_logs(...)` result for the bit-ponder logs. -/
  bitPonderAnalysis : String

/-- Output of `transaction_status` plus ghost stage-tracking. -/
structure TxOut where
  /-- The returned `result_str`. -/
  result : String
  /-- Ghost: the EVM relay `fetch_logs` call was made (step 3 entered). -/
  evmAttempted : Bool
  /-- Ghost: the bit-ponder `fetch_logs` call was made. -/
  bitPonderAttempted : Bool
  /-- Ghost: the bit-ponder `fetch_logs` call raised and was caught. -/
  bitPonderFailed : Bool
  /-- Ghost: the `return result_str` inside the step-3 `except` ran. -/
  earlyReturn : Bool
  /-- Ghost: the `Final Transaction Status Summary` block was appended. -/
  summaryEmitted : Bool
  /-- Ghost: the seven classifier flags as computed (all false when the
  classifying block was not reached). -/
  flags : Flags

/-- Python truthiness of an optional int (`None` and `0` falsy), for the
`if create_id and unix_timestamp:` guard. -/
def optIntTruthy (o : Option Int) : Bool := o.getD 0 ≠ 0

/-- Python `x or 'Not found'` for an optional identifier. -/
def orNotFound (o : Option String) : String :=
  if optStrTruthy o then o.getD "" else "Not found"

/-- The `"\n".join([f"{k}: {v}" ...]) + "\n"` rendering of the
`create_orders` row (lines 241-242); `None` values print as `None`. -/
def dbLines (rec : OrderRec) : String :=
  "Database results from create_orders:\n" ++
  "create_id: " ++ rec.create_id.getD "None" ++ "\n" ++
  "source_chain: " ++ rec.source_chain.getD "None" ++ "\n" ++
  "destination_chain: " ++ rec.destination_chain.getD "None" ++ "\n" ++
  "created_at: " ++ (match rec.created_at with
    | some ca => ca.raw
    | none => "None") ++ "\n"

/-- The `Final Transaction Status Summary` block (lines 394-406). -/
def summaryStr (source_chain destination_chain source_swap_id
    destination_swap_id : Option String) (create_order_success : Bool)
    (f : Flags) : String :=
  "\nFinal Transaction Status Summary:\n" ++
  "- Source Chain: " ++ (if optStrTruthy source_chain then source_chain.getD "" else "Unknown") ++ "\n" ++
  "- Destination Chain: " ++ (if optStrTruthy destination_chain then destination_chain.getD "" else "Unknown") ++ "\n" ++
  "- Source Swap ID: " ++ orNotFound source_swap_id ++ "\n" ++
  "- Destination Swap ID: " ++ orNotFound destination_swap_id ++ "\n" ++
  "- Order Created: " ++ (if create_order_success then "Yes" else "No") ++ "\n" ++
  "- Order Matched: " ++ (if f.is_matched then "Yes" else "No") ++ "\n" ++
  "- User Initiated: " ++ (if f.user_initiated then "Yes" else "No") ++ "\n" ++
  "- Cobi Initiated: " ++ (if f.cobi_initiated then "Yes" else "No") ++ "\n" ++
  "- User Redeemed: " ++ (if f.user_redeemed then "Yes" else "No") ++ "\n" ++
  "- Cobi Redeemed: " ++ (if f.cobi_redeemed then "Yes" else "No") ++ "\n" ++
  "- User Refunded: " ++ (if f.user_refunded then "Yes" else "No") ++ "\n" ++
  "- Cobi Refunded: " ++ (if f.cobi_refunded then "Yes" else "No") ++ "\n"

/-- The classifying block under `status == "Ok" and result` (lines
316-391), including the bit-ponder fetch nested in the user-initiation
branch (lines 331-349).  Returns the grown `result_str`, the two ghost
bit-ponder flags, and the flag vector. -/
def classifyBlock (env : Env) (cid : String)
    (source_swap_id destination_swap_id : Option String) (unixTs : Int)
    (s : String) : String × Bool × Bool × Flags :=
  let rd := (env.matchedOrder).result.getD {}
  let is_matched := optSwapTruthy rd.source_swap || optSwapTruthy rd.destination_swap
  let s := if is_matched then
      s ++ "\nOrder matched successfully for create_id '" ++ cid ++ "'.\n"
    else s
  let user_initiated := sideInitiated rd.source_swap
  let (s, bpAttempted, bpFailed) :=
    if user_initiated then
      let s := s ++ "User has initiated the transaction for create_id '" ++ cid ++ "'.\n"
      match env.bitPonderFetch with
      | .ok br =>
        let s := s ++ "\nLogs from /stage-bit-ponder (from " ++ toString unixTs ++
          " to " ++ toString (unixTs + 7200) ++ "):\n" ++ br.raw_logs ++ "\n"
        let s := if optStrTruthy source_swap_id || optStrTruthy destination_swap_id then
            s ++ "\nAnalysis of filtered /stage-bit-ponder logs:\n" ++
              env.bitPonderAnalysis ++ "\n"
          else
            s ++ "\nNo source_swap_id or destination_swap_id available for filtering /stage-bit-ponder logs.\n"
        (s, true, false)
      | .error e =>
        (s ++ "\nLogs from /stage-bit-ponder: Error fetching logs: " ++ e ++ "\n",
          true, true)
    else (s, false, false)
  let cobi_initiated := sideInitiated rd.destination_swap
  let s := if cobi_initiated then
      s ++ "Cobi has initiated the transaction for create_id '" ++ cid ++ "'.\n"
    else s
  let user_redeemed := sideRedeemed rd.source_swap
  let s := if user_redeemed then
      s ++ "User has redeemed the transaction for create_id '" ++ cid ++ "'.\n"
    else s
  let cobi_redeemed := sideRedeemed rd.destination_swap
  let s := if cobi_redeemed then
      s ++ "Cobi has redeemed the transaction for create_id '" ++ cid ++ "'.\n"
    else s
  let user_refunded := sideRefunded rd.source_swap
  let s := if user_refunded then
      s ++ "User has been refunded for create_id '" ++ cid ++ "'.\n"
    else s
  let cobi_refunded := sideRefunded rd.destination_swap
  let s := if cobi_refunded then
      s ++ "Cobi has been refunded for create_id '" ++ cid ++ "'.\n"
    else s
  (s, bpAttempted, bpFailed,
    ⟨is_matched, user_initiated, cobi_initiated, user_redeemed,
      cobi_redeemed, user_refunded, cobi_refunded⟩)

/-- Step 4 (`if create_id and create_order_success:`, lines 303-406):
matched-order call, classification, bit-ponder fetch, final summary. -/
def step4 (env : Env) (create_id source_chain destination_chain
    source_swap_id destination_swap_id : Option String)
    (unixTs : Int) (create_order_success evmAttempted : Bool)
    (s : String) : TxOut :=
  if optStrTruthy create_id && create_order_success then
    let cid := create_id.getD ""
    let mo := env.matchedOrder
    let s := s ++ "\nMatched order API response for create_id '" ++ cid ++
      "':\n" ++ toString (repr mo) ++ "\n"
    let (s, bpA, bpF, flags) :=
      if statusOkAndResult mo then
        classifyBlock env cid source_swap_id destination_swap_id unixTs s
      else (s, false, false, Flags.allFalse)
    { result := s ++ summaryStr source_chain destination_chain
        source_swap_id destination_swap_id create_order_success flags
      evmAttempted := evmAttempted
      bitPonderAttempted := bpA
      bitPonderFailed := bpF
      earlyReturn := false
      summaryEmitted := true
      flags := flags }
  else
    { result := s, evmAttempted := evmAttempted, bitPonderAttempted := false
      bitPonderFailed := false, earlyReturn := false, summaryEmitted := false
      flags := Flags.allFalse }

/-- Step 2 (`if create_id:`, lines 260-275): matched-ids lookup; its
failure is recorded in `result_str` and the pipeline continues.  Returns
the grown `result_str` and the two swap ids. -/
def step2 (env : Env) (create_id : Option String) (s1 : String) :
    String × Option String × Option String :=
  if optStrTruthy create_id then
    match env.matched with
    | .error e =>
      (s1 ++ "Matched orders query error: " ++ e ++ "\n",
        (none : Option String), (none : Option String))
    | .ok none =>
      (s1 ++ "No matched orders found for create_id '" ++
        create_id.getD "" ++ "'.\n", none, none)
    | .ok (some m) =>
      (s1 ++ "\nMatched order IDs for create_id '" ++ create_id.getD "" ++
        "':\n- Source Swap ID: " ++ orNotFound m.source_swap_id ++
        "\n- Destination Swap ID: " ++ orNotFound m.destination_swap_id ++ "\n",
        m.source_swap_id, m.destination_swap_id)
  else (s1, none, none)

/-- Step 3 (`if create_id and unix_timestamp:`, lines 277-300) followed
by step 4.  The EVM relay `fetch_logs` failure branch is the one place
the orchestrator returns early (`return result_str`, line 300): the
bit-ponder source is then never attempted. -/
def step3 (env : Env) (create_id source_chain destination_chain : Option String)
    (unix_timestamp : Option Int)
    (t : String × Option String × Option String) : TxOut :=
  let s2 := t.1
  let source_swap_id := t.2.1
  let destination_swap_id := t.2.2
  if optStrTruthy create_id && optIntTruthy unix_timestamp then
    let ts := unix_timestamp.getD 0
    match env.evmFetch with
    | .error e =>
      { result := s2 ++ "\nLogs from /staging-evm-relay: Error fetching logs: " ++
          e ++ "\n"
        evmAttempted := true, bitPonderAttempted := false
        bitPonderFailed := false, earlyReturn := true, summaryEmitted := false
        flags := Flags.allFalse }
    | .ok lr =>
      let cid := create_id.getD ""
      let s3 := s2 ++ (if lr.is_order_created then
          "\nOrder created successfully: create_id '" ++ cid ++
            "' found in /staging-evm-relay logs.\n"
        else
          "\nOrder not confirmed: create_id '" ++ cid ++
            "' not found in /staging-evm-relay logs.\n") ++
        "Logs from /staging-evm-relay (±300s around " ++ toString ts ++
        "):\n" ++ lr.raw_logs ++ "\n"
      let s3 := if optStrTruthy source_swap_id || optStrTruthy destination_swap_id then
          s3 ++ "\nAnalysis of filtered /staging-evm-relay logs:\n" ++
            env.evmAnalysis ++ "\n"
        else s3
      step4 env create_id source_chain destination_chain source_swap_id
        destination_swap_id ts lr.is_order_created true s3
  else
    step4 env create_id source_chain destination_chain source_swap_id
      destination_swap_id 0 false false s2

/-- Steps 2-4 once a non-empty `create_orders` row is in hand (lines
243-408): context extraction (including the `created_at` parse and its
caught failure, lines 246-252), then `step2` and `step3`. -/
def afterDb (env : Env) (rec : OrderRec) (s0 : String) : TxOut :=
  let unix_timestamp : Option Int := match rec.created_at with
    | some ca => ca.parsed.toOption
    | none => none
  let s1 := s0 ++ (match rec.created_at with
    | some ca => match ca.parsed with
      | .error e => "Failed to parse timestamp '" ++ ca.raw ++ "': " ++ e ++ "\n"
      | .ok _ => ""
    | none => "")
  step3 env rec.create_id rec.source_chain rec.destination_chain
    unix_timestamp (step2 env rec.create_id s1)

/-- `transaction_status` (lines 229-408). -/
def transactionStatus (env : Env) (initiator_source_address : String) : TxOut :=
  let header := "Transaction status for initiator_source_address '" ++
    initiator_source_address ++ "':\n"
  match env.db with
  | .error e =>
    { result := header ++ "Database query error: " ++ e ++ "\n"
      evmAttempted := false, bitPonderAttempted := false
      bitPonderFailed := false, earlyReturn := false, summaryEmitted := false
      flags := Flags.allFalse }
  | .ok none =>
    { result := header ++ "No data found for initiator_source_address '" ++
        initiator_source_address ++ "' in create_orders.\n"
      evmAttempted := false, bitPonderAttempted := false
      bitPonderFailed := false, earlyReturn := false, summaryEmitted := false
      flags := Flags.allFalse }
  | .ok (some rec) => afterDb env rec (header ++ dbLines rec)

/-! ## `fetch_db_info` (`transaction_utils.py` lines 58-91) -/

/-- Module constant `CREATE_ID` (`transaction_utils.py` line 33). -/
def CREATE_ID : String :=
  "2def3eb62b4b546defab9a658eb1024305d67c7607d83ec531ce47896bdf8fce"

/-- `fetch_db_info(initiator_source_address)`: the executed SQL is
`SELECT ... FROM create_orders WHERE create_id = %s` with the module
constant `CREATE_ID` bound as the parameter (line 70); the
`initiator_source_address` argument does not appear in the query.
`store` maps the bound query parameter to the fetched row (`none` = no
row, i.e. the empty dict return). -/
def fetch_db_info (store : String → Option OrderRec)
    (initiator_source_address : String) : Option OrderRec :=
  store CREATE_ID

/-! ## Spec-side predicates and concrete instances

`specSideInitiated` transcribes the specification wording for the
initiation flag (§4.3 of the spec), to be compared with the code-side
`sideInitiated`.  `withDestRedeem` builds a matched-order result whose
`destination_swap` carries a chosen `redeem_tx_hash`, for the
classifier-independence statement.  The `c*` definitions are concrete
servers / responses / environments used by counterexamples and witnesses. -/

/-- Spec wording (§4.3): the side is initiated iff that side's
`initiate_tx_hash` is non-empty and `current_confirmations >=
required_confirmations`, with `required_confirmations` defaulting to 1
(and `current_confirmations` to 0) when absent. -/
def specSideInitiated (os : Option Swap) : Prop :=
  ∃ sw, os = some sw ∧ sw.initiate_tx_hash.getD "" ≠ "" ∧
    sw.current_confirmations.getD 0 ≥ sw.required_confirmations.getD 1

/-- A matched-order result whose destination swap is `d` with its
`redeem_tx_hash` field replaced by `h`; all other parts (`status`, the
source swap, the payload's other keys) are the parameters.  Two such
results with different `h` are identical except for the presence of the
destination redeem transaction hash. -/
def withDestRedeem (st : Option String) (ss : Option Swap) (d : Swap)
    (ks : List String) (h : Option String) : MatchedOrderResult :=
  { status := st
    result := some
      { source_swap := ss
        destination_swap := some { d with redeem_tx_hash := h }
        otherKeys := ks } }

/-- A log server answering every page query with the same single line
whose timestamp (172800 s, in nanoseconds) sits exactly on the boundary
between the first two fetch windows. -/
def c4server : Int → Int → Int → Except String Page :=
  fun _ _ _ => .ok [[(172800000000000, "dup")]]

/-- A log server answering every page query with the same single-line
page (1 line, far below any page limit) whose timestamp is 100 s. -/
def c5server : Int → Int → Int → Except String Page :=
  fun _ _ _ => .ok [[(100000000000, "line1")]]

/-- A log server answering every query with an empty page. -/
def emptyServer : Int → Int → Int → Except String Page := fun _ _ _ => .ok []

/-- A log server whose single page contains a line mentioning `cid`. -/
def c9server : Int → Int → Int → Except String Page :=
  fun _ _ _ => .ok [[(0, "order cid created")]]

/-- A matched-order response with status Ok and an initiated source swap
(2 confirmations of 1 required). -/
def c7result : MatchedOrderResult :=
  { status := some "Ok"
    result := some
      { source_swap := some
          { initiate_tx_hash := some "tx"
            current_confirmations := some 2
            required_confirmations := some 1 } } }

/-- A matched-order response whose status is not the success indicator. -/
def c7errorResult : MatchedOrderResult := { status := some "Error" }

/-- Status Ok, payload whose `destination_swap` key holds an empty object
(falsy in Python) and no `redeem_tx_hash`. -/
def c8resA : MatchedOrderResult :=
  { status := some "Ok", result := some { destination_swap := some {} } }

/-- Identical to `c8resA` except that `destination_swap` now carries a
non-empty `redeem_tx_hash` (making the object non-empty, hence truthy). -/
def c8resB : MatchedOrderResult :=
  { status := some "Ok"
    result := some { destination_swap := some { redeem_tx_hash := some "h" } } }

/-- Orchestrator run in which the EVM relay fetch raises a transport
failure while the bit-ponder fetch would succeed; everything upstream
(database row, matched ids, matched-order response) is healthy. -/
def c2env : Env :=
  { db := .ok (some
      { create_id := some "cid"
        source_chain := some "arbitrum_sepolia"
        destination_chain := some "bitcoin_testnet"
        created_at := some
          { raw := "2024-01-01 00:00:00+00:00", parsed := .ok 1704067200 } })
    matched := .ok (some
      { source_swap_id := some "S1", destination_swap_id := some "D1" })
    evmFetch := .error "connection timeout"
    evmAnalysis := ""
    matchedOrder := c7result
    bitPonderFetch := .ok
      { is_order_created := true
        raw_logs := "bit ponder line"
        raw_log_list := ["bit ponder line"] }
    bitPonderAnalysis := "analysis" }

/-- Orchestrator run in which the EVM relay fetch succeeds (order-created
confirmed, user initiated) but the bit-ponder fetch raises. -/
def c2envB : Env :=
  { db := .ok (some
      { create_id := some "cid"
        source_chain := some "arbitrum_sepolia"
        destination_chain := some "bitcoin_testnet"
        created_at := some
          { raw := "2024-01-01 00:00:00+00:00", parsed := .ok 1704067200 } })
    matched := .ok (some
      { source_swap_id := some "S1", destination_swap_id := some "D1" })
    evmFetch := .ok
      { is_order_created := true
        raw_logs := "evm line"
        raw_log_list := ["evm line"] }
    evmAnalysis := ""
    matchedOrder := c7result
    bitPonderFetch := .error "connection timeout"
    bitPonderAnalysis := "" }

/-! ## Helper lemmas about the windowed fetch loop -/

/-- Each pass of the loop body issues at most one page request and
consumes one unit of fuel, so the request count grows by at most the
fuel spent. -/
theorem fetchLoop_requests_le (server : Int → Int → Int → Except String Page)
    (endTime limit : Int) :
    ∀ (fuel : Nat) (cs : Int) (seen : List (Int × Int)) (acc : List String)
      (reqs : Nat),
    (fetchLoop server endTime limit fuel cs seen acc reqs).requests ≤ reqs + fuel := by
  intro fuel
  induction fuel with
  | zero => intro cs seen acc reqs; simp [fetchLoop]
  | succ n ih =>
    intro cs seen acc reqs
    simp only [fetchLoop]
    split
    · split
      · exact le_trans (ih _ _ _ _) (by omega)
      · split
        · exact le_trans (ih _ _ _ _) (by omega)
        · split
          · simp
          · exact le_trans (ih _ _ _ _) (by omega)
    · simp

/-- Once the window start has reached the end of the range, the loop
returns immediately, whatever fuel remains. -/
theorem fetchLoop_done (server : Int → Int → Int → Except String Page)
    (endTime limit : Int) (fuel : Nat) (cs : Int) (seen : List (Int × Int))
    (acc : List String) (reqs : Nat) (h : ¬ cs < endTime) :
    fetchLoop server endTime limit fuel cs seen acc reqs = ⟨.ok acc, reqs, seen⟩ := by
  cases fuel <;> simp [fetchLoop, h]

/-- A range is added to `seen_ranges` only after the guard has ruled out
its presence, so the requested-range list stays duplicate-free. -/
theorem fetchLoop_queried_nodup (server : Int → Int → Int → Except String Page)
    (endTime limit : Int) :
    ∀ (fuel : Nat) (cs : Int) (seen : List (Int × Int)) (acc : List String)
      (reqs : Nat), seen.Nodup →
    (fetchLoop server endTime limit fuel cs seen acc reqs).queried.Nodup := by
  intro fuel
  induction fuel with
  | zero => intro cs seen acc reqs h; simpa [fetchLoop] using h
  | succ n ih =>
    intro cs seen acc reqs h
    simp only [fetchLoop]
    split
    · split
      · exact ih _ _ _ _ h
      · split
        · exact ih _ _ _ _ h
        · rename_i hmem
          have hnotmem : (cs, min (cs + WINDOW_SECONDS) endTime) ∉ seen := by
            simpa using hmem
          split
          · simpa using ⟨hnotmem, h⟩
          · exact ih _ _ _ _ (by simp [List.nodup_cons, hnotmem, h])
    · simpa using h

/-- A window shorter than `MIN_WINDOW_SECONDS` is skipped and the start
moved to the window end, which here is the range end: the loop then
finishes with no page request. -/
theorem fetchLoop_small_range (server : Int → Int → Int → Except String Page)
    (endTime limit : Int) (n : Nat) (cs : Int) (seen : List (Int × Int))
    (acc : List String) (reqs : Nat)
    (h2 : endTime - cs < MIN_WINDOW_SECONDS) :
    fetchLoop server endTime limit (n + 1) cs seen acc reqs = ⟨.ok acc, reqs, seen⟩ := by
  by_cases h1 : cs < endTime
  · have hmin : min (cs + WINDOW_SECONDS) endTime = endTime := by
      simp [WINDOW_SECONDS, MIN_WINDOW_SECONDS] at *; omega
    simp only [fetchLoop, if_pos h1, hmin]
    rw [if_pos (by simp [MIN_WINDOW_SECONDS] at *; omega)]
    exact fetchLoop_done _ _ _ _ _ _ _ _ (by omega)
  · exact fetchLoop_done _ _ _ _ _ _ _ _ h1

/-- When a single window covers the whole remaining range and its page
comes back empty, the start advances to the range end and the loop stops
after that one request. -/
theorem fetchLoop_one_request (server : Int → Int → Int → Except String Page)
    (endTime limit : Int) (n : Nat) (cs : Int) (seen : List (Int × Int))
    (acc : List String) (reqs : Nat) (page : Page)
    (h1 : cs < endTime) (h2 : endTime ≤ cs + WINDOW_SECONDS)
    (h3 : MIN_WINDOW_SECONDS ≤ endTime - cs)
    (h4 : seen.contains (cs, endTime) = false)
    (h5 : server cs endTime limit = .ok page)
    (h6 : pageMessages page = []) :
    fetchLoop server endTime limit (n + 1) cs seen acc reqs =
      ⟨.ok acc, reqs + 1, (cs, endTime) :: seen⟩ := by
  have hmin : min (cs + WINDOW_SECONDS) endTime = endTime := by omega
  simp only [fetchLoop, if_pos h1, hmin]
  rw [if_neg (by omega)]
  rw [if_neg (by simpa using h4)]
  rw [h5]
  simp only [h6, List.isEmpty_nil, if_true, List.append_nil]
  exact fetchLoop_done _ _ _ _ _ _ _ _ (by omega)

/-- A swap object whose `initiate_tx_hash` is a non-empty string is a
non-empty dict, hence truthy. -/
theorem Swap.truthy_of_initiate (sw : Swap)
    (h : sw.initiate_tx_hash.getD "" ≠ "") : sw.truthy = true := by
  cases hi : sw.initiate_tx_hash with
  | none => rw [hi] at h; simp at h
  | some t => simp [Swap.truthy, hi]

/-- The code-side initiation check agrees with the spec wording. -/
theorem sideInitiated_iff_spec (os : Option Swap) :
    sideInitiated os = true ↔ specSideInitiated os := by
  cases os with
  | none => simp [sideInitiated, specSideInitiated]
  | some sw =>
    simp only [sideInitiated, specSideInitiated, Bool.and_eq_true,
      decide_eq_true_eq]
    constructor
    · rintro ⟨ht, h1, h2⟩
      exact ⟨sw, rfl, h1, h2⟩
    · rintro ⟨sw', heq, h1, h2⟩
      have hsw : sw = sw' := Option.some_inj.mp heq
      subst hsw
      exact ⟨Swap.truthy_of_initiate sw h1, h1, h2⟩

/-! ## Claim C1 -/

/-- Claim C1 (code_bug): `fetch_db_info` is claimed to query by the
caller-supplied identifier, so that two calls with identifiers of
different stored orders resolve different records.  In the code the SQL
parameter is the hardcoded module constant `CREATE_ID` (line 70), so the
result never depends on the argument: any two identifiers resolve the
same record, contradicting the function's own docstring ("Fetch the
latest create_orders record for the initiator source address"). -/
theorem fetch_db_info_ignores_identifier :
    ∀ (store : String → Option OrderRec) (a b : String),
    fetch_db_info store a = store CREATE_ID ∧
    fetch_db_info store a = fetch_db_info store b :=
  fun _ _ _ => ⟨rfl, rfl⟩

/-! ## Claim C2 -/

/-- Claim C2 counterexample: in `c2env` the EVM relay fetch raises while
the bit-ponder fetch would succeed, yet the orchestrator takes the early
`return` of line 300: the bit-ponder source is never attempted and no
final summary is produced, refuting the claimed partial-failure
isolation between log sources. -/
theorem orchestrator_isolation_counterexample :
    (transactionStatus c2env "addr").evmAttempted = true ∧
    (transactionStatus c2env "addr").earlyReturn = true ∧
    (transactionStatus c2env "addr").bitPonderAttempted = false ∧
    (transactionStatus c2env "addr").summaryEmitted = false :=
  ⟨rfl, rfl, rfl, rfl⟩

/-- Claim C2 (corrected): isolation only holds in one direction.  When
the pipeline reaches the bit-ponder fetch (order resolved, EVM fetch
succeeded with the order confirmed created, user initiation established)
and that fetch raises, the failure is caught, recorded, and the
orchestrator still runs to the final summary without returning early —
no exception escapes.  (The converse direction, an EVM relay failure, is
the counterexample: it returns early and skips the other source.) -/
theorem orchestrator_bitponder_isolated
    (env : Env) (addr cid raw : String) (rec : OrderRec) (ts : Int)
    (fo : FetchLogsOut) (msg : String)
    (hdb : env.db = .ok (some rec))
    (hcid : rec.create_id = some cid) (hcid2 : cid ≠ "")
    (hca : rec.created_at = some { raw := raw, parsed := .ok ts })
    (hts2 : ts ≠ 0)
    (hevm : env.evmFetch = .ok fo) (hsucc : fo.is_order_created = true)
    (hok : statusOkAndResult env.matchedOrder = true)
    (hui : sideInitiated ((env.matchedOrder).result.getD {}).source_swap = true)
    (hbp : env.bitPonderFetch = .error msg) :
    (transactionStatus env addr).bitPonderAttempted = true ∧
    (transactionStatus env addr).bitPonderFailed = true ∧
    (transactionStatus env addr).summaryEmitted = true ∧
    (transactionStatus env addr).earlyReturn = false := by
  have hstep4 : ∀ (sc dc ssid dsid : Option String) (uts : Int) (s : String),
      (step4 env (some cid) sc dc ssid dsid uts true true s).bitPonderAttempted = true ∧
      (step4 env (some cid) sc dc ssid dsid uts true true s).bitPonderFailed = true ∧
      (step4 env (some cid) sc dc ssid dsid uts true true s).summaryEmitted = true ∧
      (step4 env (some cid) sc dc ssid dsid uts true true s).earlyReturn = false := by
    intro sc dc ssid dsid uts s
    simp [step4, optStrTruthy, hcid2, hok, classifyBlock, hui, hbp]
  simp only [transactionStatus, hdb]
  simp only [afterDb, hca, hcid]
  simp only [step3, optStrTruthy, optIntTruthy, hevm, hsucc]
  simp only [Except.toOption, Option.getD_some]
  simp [hcid2, hts2, hstep4]

/-- Claim C2 witness: the hypotheses of
`orchestrator_bitponder_isolated` are satisfiable — `c2envB` realises
them concretely. -/
theorem orchestrator_bitponder_isolated_witness :
    (transactionStatus c2envB "addr").bitPonderAttempted = true ∧
    (transactionStatus c2envB "addr").bitPonderFailed = true ∧
    (transactionStatus c2envB "addr").summaryEmitted = true ∧
    (transactionStatus c2envB "addr").earlyReturn = false :=
  orchestrator_bitponder_isolated c2envB "addr" "cid"
    "2024-01-01 00:00:00+00:00" _ 1704067200 _ "connection timeout"
    rfl rfl (by decide) rfl (by decide) rfl rfl rfl rfl rfl

/-! ## Claim C3 -/

/-- Claim C3 (confirmed): for every sequence of page responses —
including pathological ones whose maximum observed timestamp never
advances past the window start — the windowed loop of
`api_client.fetch_logs` terminates (its iteration counter increases by 1
on every pass and is capped by `max_iterations`, which the fuel of
`fetchLoop` mirrors exactly) and it issues at most
`floor(MAX_LOOKBACK / WINDOW_SECONDS)` = 15 page requests. -/
theorem fetch_loop_request_bound :
    ∀ (server : Int → Int → Int → Except String Page) (startTime : Int)
      (endTimeOpt : Option Int) (now limit : Int),
    (apiFetchLogs server startTime endTimeOpt now limit).requests ≤
      (MAX_LOOKBACK / WINDOW_SECONDS).toNat ∧
    (MAX_LOOKBACK / WINDOW_SECONDS).toNat = 15 := by
  intro server st etOpt now limit
  refine ⟨?_, rfl⟩
  have h := fetchLoop_requests_le server (effRange st etOpt now).2 limit
    MAX_ITERATIONS (effRange st etOpt now).1 [] [] 0
  simpa [apiFetchLogs, MAX_ITERATIONS] using h

/-! ## Claim C4 -/

/-- Claim C4 counterexample: `c4server` consistently reports one log line
"dup" with timestamp 172800 s (the boundary of the first fetch window).
The first window `[0, 172800]` fetches it and advances the start to that
very timestamp; the second window `[172800, 200000]` fetches it again.
`raw_log_list` ends up `["dup", "dup"]` — not duplicate-free. -/
theorem fetch_logs_duplicate_line_counterexample :
    ((apiFetchLogs c4server 0 (some 200000) 0 5000).result.toOption.map
      (fun o => o.raw_log_list)) = some ["dup", "dup"] ∧
    ¬ (["dup", "dup"] : List String).Nodup := by
  exact ⟨by decide, by decide⟩

/-- Claim C4 (corrected): `api_client.fetch_logs` performs no
deduplication of log lines (`raw_logs.extend(window_logs)` only); lines
can repeat when consecutive windows overlap at the latest observed
timestamp.  What is deduplicated is the query ranges: `seen_ranges`
guarantees no identical `(start, end)` page request is ever issued
twice. -/
theorem fetch_logs_queried_ranges_nodup :
    ∀ (server : Int → Int → Int → Except String Page) (startTime : Int)
      (endTimeOpt : Option Int) (now limit : Int),
    (apiFetchLogs server startTime endTimeOpt now limit).queried.Nodup := by
  intro server st etOpt now limit
  have h := fetchLoop_queried_nodup server (effRange st etOpt now).2 limit
    MAX_ITERATIONS (effRange st etOpt now).1 [] [] 0 (by simp)
  simpa [apiFetchLogs] using h

/-! ## Claim C5 -/

/-- Claim C5 counterexample: every page of `c5server` holds 1 line, far
below the page limit 5000, yet the fetcher issues 4 page requests over
the range `[0, 400000]`: the loop never compares the page size with the
limit, it keeps windowing until the start reaches the end time or the
iteration cap.  This refutes "terminates after exactly one page". -/
theorem fetch_logs_partial_page_counterexample :
    (c5server 0 0 0).toOption.map (fun p => (pageMessages p).length) = some 1 ∧
    (1 : Nat) < 5000 ∧
    (apiFetchLogs c5server 0 (some 400000) 0 5000).requests = 4 := by
  exact ⟨rfl, by decide, by decide⟩

/-- Claim C5 (corrected): the page-size/limit comparison does not exist
in the code, so a sub-limit page never stops pagination (see the
counterexample).  A sufficient condition for terminating after exactly
one page request: the first window already covers the whole clamped
range and its page yields no lines, so the start jumps to the range end
and the loop stops.  (This condition is not necessary — e.g. a page at
the range-end timestamp also ends the loop after one request.) -/
theorem fetch_logs_single_window_empty_page
    (server : Int → Int → Int → Except String Page)
    (s e now limit : Int) (page : Page)
    (h1 : MIN_WINDOW_SECONDS ≤ e - s) (h2 : e ≤ s + WINDOW_SECONDS)
    (h5 : server s e limit = .ok page) (h6 : pageMessages page = []) :
    (apiFetchLogs server s (some e) now limit).requests = 1 := by
  have hW : WINDOW_SECONDS ≤ MAX_LOOKBACK := by decide
  have hM : (0 : Int) < MIN_WINDOW_SECONDS := by decide
  have hs : ¬ (s > e) := by omega
  have heff1 : (effRange s (some e) now).1 = s := by simp [effRange, hs]
  have heff2 : (effRange s (some e) now).2 = e := by
    simp [effRange, hs]; omega
  simp only [apiFetchLogs, heff1, heff2]
  rw [show MAX_ITERATIONS = 14 + 1 from rfl]
  rw [fetchLoop_one_request server e limit 14 s [] [] 0 page (by omega) h2 h1
    rfl h5 h6]

/-- Claim C5 witness: the hypotheses of
`fetch_logs_single_window_empty_page` are satisfiable (empty page on the
range `[0, 100]`). -/
theorem fetch_logs_single_window_empty_page_witness :
    (apiFetchLogs emptyServer 0 (some 100) 0 5000).requests = 1 :=
  fetch_logs_single_window_empty_page emptyServer 0 100 0 5000 []
    (by decide) (by decide) rfl rfl

/-! ## Claim C6 -/

/-- Claim C6 counterexample: with all identifiers empty, the relevance
filter of `analyze_bit_ponder_logs` returns the empty list, not the
input: each conjunct `(id and id in log)` is short-circuited to falsy by
the empty identifier, so every line is dropped. -/
theorem filter_soundness_counterexample :
    filterLogs ["x"] "" "" "" = [] ∧ (([] : List String) ≠ ["x"]) :=
  ⟨rfl, by decide⟩

/-- Claim C6 (corrected): every line of the filtered output contains at
least one of the supplied non-empty identifiers as a substring (as
claimed); but when all identifiers are empty the filtered output is the
empty list, not the input list. -/
theorem filter_soundness_amended :
    ∀ (logs : List String) (source_swap_id destination_swap_id create_id : String),
    (∀ l ∈ filterLogs logs source_swap_id destination_swap_id create_id,
      (create_id ≠ "" ∧ strContains create_id l = true) ∨
      (source_swap_id ≠ "" ∧ strContains source_swap_id l = true) ∨
      (destination_swap_id ≠ "" ∧ strContains destination_swap_id l = true)) ∧
    (create_id = "" → source_swap_id = "" → destination_swap_id = "" →
      filterLogs logs source_swap_id destination_swap_id create_id = []) := by
  intro logs ssid dsid cid
  constructor
  · intro l hl
    rw [filterLogs, List.mem_filter] at hl
    have h := hl.2
    simp only [Bool.or_eq_true, Bool.and_eq_true, decide_eq_true_eq] at h
    tauto
  · intro h1 h2 h3
    simp [filterLogs, h1, h2, h3]

/-- Claim C6 witness: both parts of `filter_soundness_amended` applied at
concrete inputs — the line "ab" kept by identifier "a" contains it, and
the all-empty-identifier filter yields the empty list. -/
theorem filter_soundness_witness :
    ((("" : String) ≠ "" ∧ strContains "" "ab" = true) ∨
      (("a" : String) ≠ "" ∧ strContains "a" "ab" = true) ∨
      (("" : String) ≠ "" ∧ strContains "" "ab" = true)) ∧
    filterLogs ["x"] "" "" "" = [] :=
  ⟨(filter_soundness_amended ["ab"] "a" "" "").1 "ab" (by decide),
    (filter_soundness_amended ["x"] "" "" "").2 rfl rfl rfl⟩

/-! ## Claim C7 -/

/-- Claim C7 (confirmed): when the matched-order response has status
"Ok" and a non-empty result payload, `user_initiated` holds iff the
`source_swap` object carries a non-empty `initiate_tx_hash` and
`current_confirmations >= required_confirmations` (defaults 0 and 1 for
absent fields), and symmetrically `cobi_initiated` for
`destination_swap`; otherwise all seven flags are false. -/
theorem classifier_flags_spec :
    ∀ r : MatchedOrderResult,
    ((r.status = some "Ok" ∧ optResultTruthy r.result = true) →
      (((classify r).user_initiated = true ↔
          specSideInitiated (r.result.getD {}).source_swap) ∧
        ((classify r).cobi_initiated = true ↔
          specSideInitiated (r.result.getD {}).destination_swap))) ∧
    (¬ (r.status = some "Ok" ∧ optResultTruthy r.result = true) →
      classify r = Flags.allFalse) := by
  intro r
  constructor
  · rintro ⟨hs, hr⟩
    have hok : statusOkAndResult r = true := by
      simp [statusOkAndResult, hs, hr]
    simp only [classify, if_pos hok]
    exact ⟨sideInitiated_iff_spec _, sideInitiated_iff_spec _⟩
  · intro hn
    have hok : ¬ statusOkAndResult r = true := by
      simp only [statusOkAndResult, Bool.and_eq_true, beq_iff_eq]
      tauto
    simp [classify, hok]

/-- Claim C7 witness: both implications of `classifier_flags_spec` at
concrete responses (an Ok response with an initiated source swap; a
non-Ok response). -/
theorem classifier_flags_spec_witness :
    (((classify c7result).user_initiated = true ↔
        specSideInitiated (c7result.result.getD {}).source_swap) ∧
      ((classify c7result).cobi_initiated = true ↔
        specSideInitiated (c7result.result.getD {}).destination_swap)) ∧
    classify c7errorResult = Flags.allFalse :=
  ⟨(classifier_flags_spec c7result).1 ⟨rfl, rfl⟩,
    (classifier_flags_spec c7errorResult).2 (by decide)⟩

/-! ## Claim C8 -/

/-- Claim C8 counterexample: `c8resA` and `c8resB` are identical except
for the presence of a non-empty `redeem_tx_hash` on `destination_swap`,
yet `is_matched` differs too (not only `cobi_redeemed`): the redeem hash
makes the previously empty `destination_swap` dict truthy, flipping the
`is_matched` presence check. -/
theorem classifier_independence_counterexample :
    c8resA.status = c8resB.status ∧
    (c8resA.result.getD {}).source_swap = (c8resB.result.getD {}).source_swap ∧
    (c8resA.result.getD {}).destination_swap = some {} ∧
    (c8resB.result.getD {}).destination_swap =
      some { redeem_tx_hash := some "h" } ∧
    (classify c8resA).is_matched = false ∧
    (classify c8resB).is_matched = true := by
  refine ⟨rfl, rfl, rfl, rfl, rfl, rfl⟩

/-- Claim C8 (corrected): provided the `destination_swap` object is
non-empty (truthy) under both redeem values, flipping `redeem_tx_hash`
changes none of the six flags other than `cobi_redeemed`.  (Without that
proviso the flip can also change `is_matched` — see the
counterexample.) -/
theorem classifier_independence_amended
    (st : Option String) (ss : Option Swap) (d : Swap) (ks : List String)
    (h h' : Option String)
    (ht : Swap.truthy { d with redeem_tx_hash := h } = true)
    (ht' : Swap.truthy { d with redeem_tx_hash := h' } = true) :
    (classify (withDestRedeem st ss d ks h)).is_matched =
      (classify (withDestRedeem st ss d ks h')).is_matched ∧
    (classify (withDestRedeem st ss d ks h)).user_initiated =
      (classify (withDestRedeem st ss d ks h')).user_initiated ∧
    (classify (withDestRedeem st ss d ks h)).cobi_initiated =
      (classify (withDestRedeem st ss d ks h')).cobi_initiated ∧
    (classify (withDestRedeem st ss d ks h)).user_redeemed =
      (classify (withDestRedeem st ss d ks h')).user_redeemed ∧
    (classify (withDestRedeem st ss d ks h)).user_refunded =
      (classify (withDestRedeem st ss d ks h')).user_refunded ∧
    (classify (withDestRedeem st ss d ks h)).cobi_refunded =
      (classify (withDestRedeem st ss d ks h')).cobi_refunded := by
  have hcond : statusOkAndResult (withDestRedeem st ss d ks h) =
      statusOkAndResult (withDestRedeem st ss d ks h') := by
    simp [statusOkAndResult, withDestRedeem, optResultTruthy, ResultData.truthy]
  by_cases hc : statusOkAndResult (withDestRedeem st ss d ks h) = true
  · have hc' : statusOkAndResult (withDestRedeem st ss d ks h') = true :=
      hcond ▸ hc
    simp only [withDestRedeem] at hc hc'
    refine ⟨?_, ?_, ?_, ?_, ?_, ?_⟩ <;>
      simp [classify, hc, hc', withDestRedeem, optSwapTruthy, sideInitiated,
        sideRedeemed, sideRefunded, ht, ht']
  · have hc' : ¬ statusOkAndResult (withDestRedeem st ss d ks h') = true :=
      hcond ▸ hc
    simp [classify, hc, hc']

/-- Claim C8 witness: `classifier_independence_amended` at a concrete
swap object kept truthy by its `initiate_tx_hash`, flipping the redeem
hash from absent to `"r"`. -/
theorem classifier_independence_amended_witness :
    (classify (withDestRedeem (some "Ok") none { initiate_tx_hash := some "x" }
        [] none)).is_matched =
      (classify (withDestRedeem (some "Ok") none { initiate_tx_hash := some "x" }
        [] (some "r"))).is_matched ∧
    (classify (withDestRedeem (some "Ok") none { initiate_tx_hash := some "x" }
        [] none)).user_initiated =
      (classify (withDestRedeem (some "Ok") none { initiate_tx_hash := some "x" }
        [] (some "r"))).user_initiated ∧
    (classify (withDestRedeem (some "Ok") none { initiate_tx_hash := some "x" }
        [] none)).cobi_initiated =
      (classify (withDestRedeem (some "Ok") none { initiate_tx_hash := some "x" }
        [] (some "r"))).cobi_initiated ∧
    (classify (withDestRedeem (some "Ok") none { initiate_tx_hash := some "x" }
        [] none)).user_redeemed =
      (classify (withDestRedeem (some "Ok") none { initiate_tx_hash := some "x" }
        [] (some "r"))).user_redeemed ∧
    (classify (withDestRedeem (some "Ok") none { initiate_tx_hash := some "x" }
        [] none)).user_refunded =
      (classify (withDestRedeem (some "Ok") none { initiate_tx_hash := some "x" }
        [] (some "r"))).user_refunded ∧
    (classify (withDestRedeem (some "Ok") none { initiate_tx_hash := some "x" }
        [] none)).cobi_refunded =
      (classify (withDestRedeem (some "Ok") none { initiate_tx_hash := some "x" }
        [] (some "r"))).cobi_refunded :=
  classifier_independence_amended (some "Ok") none { initiate_tx_hash := some "x" }
    [] none (some "r") (by decide) (by decide)

/-! ## Claim C9 -/

/-- Claim C9 (confirmed): when the page request of
`transaction_utils.fetch_logs` succeeds but the Gemini call raises, the
function still returns normally, and its `is_order_created` field is
exactly the substring check `any(create_id in msg for msg in raw_logs)`
over the fetched lines. -/
theorem tu_fetch_logs_gemini_fallback
    (server : Int → Int → Int → Except String Page)
    (page : Page) (ge cid : String) (startTime endTime limit : Int)
    (hs : server (clampTimes startTime endTime).1
      (clampTimes startTime endTime).2 limit = .ok page) :
    ∃ out, tuFetchLogs server (.error ge) cid startTime endTime limit =
        .ok out ∧
      out.is_order_created =
        out.raw_log_list.any (fun m => strContains cid m) ∧
      out.raw_log_list = pageMessages page := by
  simp only [tuFetchLogs]
  rw [hs]
  exact ⟨_, rfl, rfl, rfl⟩

/-- Claim C9 witness: `tu_fetch_logs_gemini_fallback` at a concrete
server whose page mentions the order id. -/
theorem tu_fetch_logs_gemini_fallback_witness :
    ∃ out, tuFetchLogs c9server (.error "boom") "cid" 0 100 100 = .ok out ∧
      out.is_order_created =
        out.raw_log_list.any (fun m => strContains "cid" m) ∧
      out.raw_log_list = pageMessages [[(0, "order cid created")]] :=
  tu_fetch_logs_gemini_fallback c9server [[(0, "order cid created")]]
    "boom" "cid" 0 100 100 rfl

/-! ## Claim C10 -/

/-- Claim C10 (confirmed): whenever the clamped time range spans fewer
than `MIN_WINDOW_SECONDS` = 60 seconds, `api_client.fetch_logs` issues
no page request at all and returns an empty `raw_log_list` with
`raw_logs = "No logs found."` — matching lines in that sub-minute range
are silently never queried. -/
theorem fetch_logs_subminute_range_no_request
    (server : Int → Int → Int → Except String Page)
    (startTime : Int) (endTimeOpt : Option Int) (now limit : Int)
    (h : (effRange startTime endTimeOpt now).2 -
      (effRange startTime endTimeOpt now).1 < MIN_WINDOW_SECONDS) :
    (apiFetchLogs server startTime endTimeOpt now limit).requests = 0 ∧
    (apiFetchLogs server startTime endTimeOpt now limit).result.toOption.map
      (fun o => o.raw_log_list) = some [] ∧
    (apiFetchLogs server startTime endTimeOpt now limit).result.toOption.map
      (fun o => o.raw_logs) = some "No logs found." := by
  have hloop : fetchLoop server (effRange startTime endTimeOpt now).2 limit
      MAX_ITERATIONS (effRange startTime endTimeOpt now).1 [] [] 0 =
      ⟨.ok [], 0, []⟩ := by
    rw [show MAX_ITERATIONS = 14 + 1 from rfl]
    exact fetchLoop_small_range _ _ _ _ _ _ _ _ h
  simp [apiFetchLogs, hloop, Except.map, Except.toOption]

/-- Claim C10 witness: `fetch_logs_subminute_range_no_request` on the
30-second range `[0, 30]`. -/
theorem fetch_logs_subminute_range_witness :
    (apiFetchLogs emptyServer 0 (some 30) 0 5000).requests = 0 ∧
    (apiFetchLogs emptyServer 0 (some 30) 0 5000).result.toOption.map
      (fun o => o.raw_log_list) = some [] ∧
    (apiFetchLogs emptyServer 0 (some 30) 0 5000).result.toOption.map
      (fun o => o.raw_logs) = some "No logs found." :=
  fetch_logs_subminute_range_no_request emptyServer 0 (some 30) 0 5000 (by decide)
